import Mathlib

/-!
Shallow embedding of the PuppeteerMCP screenshot engine
(`src/tools/screenshotTool.ts`, session-aware build) in Lean 4.

Effectful browser operations (process launch, navigation, selector waits,
rendering, page events) are abstracted into an environment record that fixes
the outcome of each external call; everything the application code itself
computes (argument defaulting, session-key and profile-directory resolution,
pool bookkeeping, action validation and sequencing, clamping arithmetic,
diagnostic classification, result assembly) is translated directly from the
source and is executable.
-/

set_option autoImplicit false

namespace PuppeteerMCP

/-- JavaScript truthiness of an optional string field: `undefined` and the
empty string are falsy, every other string is truthy (used by the source in
checks such as `if (!url)`, `sessionId || 'default'`, `if (userDataDir)`). -/
def strTruthy : Option String → Bool
  | none => false
  | some s => !(s == "")

/-- JavaScript `a || b` for an optional string `a` and a plain fallback `b`. -/
def jsOrElse (a : Option String) (b : String) : String :=
  match a with
  | none => b
  | some s => if s == "" then b else s

/-- Model of `path.join a b` for plain segments. -/
def pathJoin (a b : String) : String := a ++ "/" ++ b

/-- Model of `path.join(os.tmpdir(), 'puppeteer-mcp-sessions', sessionId)`,
with the temp root passed in as a parameter. -/
def tmpSessionsDir (tmpdir sessionId : String) : String :=
  pathJoin (pathJoin tmpdir "puppeteer-mcp-sessions") sessionId

/-- A browser-process handle: an identity plus its `connected` flag. -/
structure Browser where
  id : Nat
  connected : Bool
  deriving DecidableEq, Repr

/-- The process-wide `browserInstances` map, keyed by session key.  Modelled
as an association list with at most one entry per key (Map semantics). -/
abbrev PoolState := List (String × Browser)

/-- Model of `browserInstances.get(k)` (also covers `has`). -/
def lookupEntry (k : String) : PoolState → Option Browser
  | [] => none
  | (k', b) :: rest => if k' == k then some b else lookupEntry k rest

/-- Model of `browserInstances.delete(k)`: removes the entry for `k`. -/
def eraseEntry (k : String) : PoolState → PoolState
  | [] => []
  | (k', b) :: rest => if k' == k then rest else (k', b) :: eraseEntry k rest

/-- Model of `browserInstances.set(k, b)`: replaces the entry for `k` in
place, or appends a new entry. -/
def setEntry (k : String) (b : Browser) : PoolState → PoolState
  | [] => [(k, b)]
  | (k', b') :: rest => if k' == k then (k, b) :: rest else (k', b') :: setEntry k b rest

/-- Session key resolution `const sessionKey = sessionId || 'default'`. -/
def sessionKeyOf (sessionId : Option String) : String :=
  if strTruthy sessionId then
    match sessionId with
    | some s => s
    | none => "default"
  else "default"

/-- Profile-directory resolution from `getBrowser` (and duplicated at the top
of `screenshotTool`): explicit `userDataDir` wins when truthy, else a
session-derived temp path when `sessionId` is truthy, else none. -/
def resolveUserDataDir (tmpdir : String) (sessionId userDataDir : Option String) :
    Option String :=
  if strTruthy sessionId || strTruthy userDataDir then
    if strTruthy userDataDir then userDataDir
    else if strTruthy sessionId then
      some (tmpSessionsDir tmpdir (match sessionId with | some s => s | none => ""))
    else none
  else none

/-- Options recorded for a `puppeteer.launch` call (the constant
`--no-sandbox, --disable-setuid-sandbox` args are not modelled). -/
structure LaunchCall where
  headless : Bool
  userDataDir : Option String
  deriving DecidableEq, Repr

/-- Launch path of `getBrowser`: resolve the profile directory, attempt the
launch (outcome supplied by the environment), and on success store the new
browser under the session key. -/
def launchBrowser (tmpdir : String) (launchResult : Except String Browser)
    (headless : Bool) (sessionId userDataDir : Option String)
    (sessionKey : String) (st : PoolState) :
    Except String Browser × PoolState × Option LaunchCall :=
  let finalUserDataDir := resolveUserDataDir tmpdir sessionId userDataDir
  match launchResult with
  | Except.error e =>
    (Except.error e, st, some { headless := headless, userDataDir := finalUserDataDir })
  | Except.ok b =>
    (Except.ok b, setEntry sessionKey b st,
      some { headless := headless, userDataDir := finalUserDataDir })

/-- Model of `getBrowser(headless, sessionId, userDataDir)` acting on the
process-wide pool: reuse a connected browser under the session key, evict a
disconnected one before launching, otherwise launch and store.  The third
component records the launch attempt (if any) with its options. -/
def getBrowser (tmpdir : String) (launchResult : Except String Browser)
    (headless : Bool) (sessionId userDataDir : Option String) (st : PoolState) :
    Except String Browser × PoolState × Option LaunchCall :=
  let sessionKey := sessionKeyOf sessionId
  match lookupEntry sessionKey st with
  | some browser =>
    if browser.connected then (Except.ok browser, st, none)
    else
      launchBrowser tmpdir launchResult headless sessionId userDataDir sessionKey
        (eraseEntry sessionKey st)
  | none =>
    launchBrowser tmpdir launchResult headless sessionId userDataDir sessionKey st

/-- A duck-typed page action record (`PageAction` in the source): a `type`
string plus optional fields, any of which may be absent. -/
structure PageAction where
  type : String
  selector : Option String := none
  text : Option String := none
  value : Option String := none
  x : Option Int := none
  y : Option Int := none
  duration : Option Nat := none
  url : Option String := none
  timeout : Option Nat := none
  deriving DecidableEq, Repr

/-- Validation plus effect of a single case of the `switch` in
`executePageActions`.  The outcome of the page-touching effect (selector
wait, click, evaluate, goto, ...) is supplied by `eff`; the missing-field
checks and the unknown-type branch are translated from the source.  The
`wait` action only sleeps and cannot fail.  The per-action 100 ms settle
delay is timing only and is not modelled. -/
def runActionCase (eff : Except String Unit) (a : PageAction) : Except String Unit :=
  if a.type == "click" then
    if !strTruthy a.selector then Except.error "Click action requires selector" else eff
  else if a.type == "type" then
    if !strTruthy a.selector || !strTruthy a.text then
      Except.error "Type action requires selector and text"
    else eff
  else if a.type == "clear" then
    if !strTruthy a.selector then Except.error "Clear action requires selector" else eff
  else if a.type == "scroll" then
    if a.x.isSome && a.y.isSome then eff
    else if strTruthy a.selector then eff
    else eff
  else if a.type == "hover" then
    if !strTruthy a.selector then Except.error "Hover action requires selector" else eff
  else if a.type == "select" then
    if !strTruthy a.selector || !strTruthy a.value then
      Except.error "Select action requires selector and value"
    else eff
  else if a.type == "wait" then Except.ok ()
  else if a.type == "waitForElement" then
    if !strTruthy a.selector then Except.error "WaitForElement action requires selector"
    else eff
  else if a.type == "navigate" then
    if !strTruthy a.url then Except.error "Navigate action requires url" else eff
  else Except.error ("Unknown action type: " ++ a.type)

/-- One iteration of the `for` loop of `executePageActions`: any throw from
the switch is wrapped as `Failed to execute action <type>: <cause>`. -/
def runAction (eff : Except String Unit) (a : PageAction) : Except String Unit :=
  match runActionCase eff a with
  | Except.ok _ => Except.ok ()
  | Except.error msg =>
    Except.error ("Failed to execute action " ++ a.type ++ ": " ++ msg)

/-- Sequential action execution starting at attempt index `i` (the index
selects the environment-determined outcome of each attempted effect).
Returns the list of actions that completed successfully, in order, and the
first error if one occurred; actions after the first failure never run. -/
def execActionsGo (eff : Nat → Except String Unit) :
    Nat → List PageAction → List PageAction × Option String
  | _, [] => ([], none)
  | i, a :: rest =>
    match runAction (eff i) a with
    | Except.ok _ =>
      let r := execActionsGo eff (i + 1) rest
      (a :: r.1, r.2)
    | Except.error msg => ([], some msg)

/-- Model of `executePageActions(page, actions)`: executed-action trace plus
optional first error. -/
def executePageActions (eff : Nat → Except String Unit) (actions : List PageAction) :
    List PageAction × Option String :=
  execActionsGo eff 0 actions

/-- Collapse an action run to the `Promise` outcome the orchestrator sees. -/
def actionsOutcome (eff : Nat → Except String Unit) (actions : List PageAction) :
    Except String Unit :=
  match executePageActions eff actions with
  | (_, some e) => Except.error e
  | (_, none) => Except.ok ()

/-- Boolean prefix test on character lists. -/
def listIsPrefix : List Char → List Char → Bool
  | [], _ => true
  | _ :: _, [] => false
  | c :: cs, d :: ds => c == d && listIsPrefix cs ds

/-- Boolean infix (contiguous substring) test on character lists. -/
def listHasInfix (pat : List Char) : List Char → Bool
  | [] => listIsPrefix pat []
  | c :: cs => listIsPrefix pat (c :: cs) || listHasInfix pat cs

/-- Model of JavaScript `s.includes(pat)`. -/
def strIncludes (s pat : String) : Bool :=
  listHasInfix pat.toList s.toList

/-- A structured diagnostic record (`PageError` in the source). -/
structure PageError where
  type : String
  level : String
  message : String
  source : Option String := none
  line : Option Nat := none
  column : Option Nat := none
  timestamp : String := ""
  url : Option String := none
  statusCode : Option Nat := none
  deriving DecidableEq, Repr

/-- A page event as delivered by the four subscribed streams of
`collectPageErrors`.  The `response` event carries the value of
`response.ok()` as reported by the browser; the `requestfailed` event carries
`request.failure()` (which may be null).  Each event carries the receipt-time
string used for its `timestamp` field. -/
inductive PageEvent where
  | pageerror (message : String) (stackFirstLine : Option String) (ts : String)
  | console (msgType : String) (text : String) (locUrl : Option String)
      (locLine locCol : Option Nat) (ts : String)
  | response (ok : Bool) (status : Nat) (statusText : String) (url : String) (ts : String)
  | requestfailed (failure : Option String) (url : String) (ts : String)
  deriving DecidableEq, Repr

/-- Console level mapping of the `console` handler: `error` and `assert` map
to error, `warning` to warning, everything else to info. -/
def consoleLevel (msgType : String) : String :=
  if msgType == "error" || msgType == "assert" then "error"
  else if msgType == "warning" then "warning"
  else "info"

/-- Classification performed by the four event handlers registered in
`collectPageErrors`: each event yields at most one `PageError` record. -/
def classifyEvent : PageEvent → Option PageError
  | PageEvent.pageerror msg stackFirstLine ts =>
    some { type := "javascript", level := "error", message := msg,
           source := some (jsOrElse stackFirstLine ""), timestamp := ts }
  | PageEvent.console msgType text locUrl locLine locCol ts =>
    some { type := "console", level := consoleLevel msgType, message := text,
           source := locUrl, line := locLine, column := locCol, timestamp := ts }
  | PageEvent.response ok status statusText url ts =>
    if !ok then
      some { type := "network", level := if status ≥ 500 then "error" else "warning",
             message := "Failed to load resource: " ++ toString status ++ " " ++ statusText,
             url := some url, statusCode := some status, timestamp := ts }
    else none
  | PageEvent.requestfailed failure url ts =>
    match failure with
    | some errorText =>
      some { type := if strIncludes errorText "CORS" then "security" else "network",
             level := "error", message := "Request failed: " ++ errorText,
             url := some url, timestamp := ts }
    | none => none

/-- Model of `collectPageErrors`: the records accumulated for the stream of
events observed during the run. -/
def collectPageErrors (events : List PageEvent) : List PageError :=
  events.filterMap classifyEvent

/-- The `errorSummary` record of a result. -/
structure ErrorSummary where
  totalErrors : Nat
  totalWarnings : Nat
  totalLogs : Nat
  hasJavaScriptErrors : Bool
  hasNetworkErrors : Bool
  hasConsoleLogs : Bool
  deriving DecidableEq, Repr

/-- Summary computation at the end of a successful run. -/
def mkSummary (pageErrors : List PageError) : ErrorSummary :=
  { totalErrors := (pageErrors.filter (fun e => e.level == "error")).length
    totalWarnings := (pageErrors.filter (fun e => e.level == "warning")).length
    totalLogs := (pageErrors.filter (fun e => e.level == "info")).length
    hasJavaScriptErrors :=
      pageErrors.any (fun e => e.type == "javascript" && e.level == "error")
    hasNetworkErrors :=
      pageErrors.any (fun e => e.type == "network" && e.level == "error")
    hasConsoleLogs :=
      pageErrors.any (fun e => e.type == "console" && e.level == "info") }

/-- The all-zero, all-false summary used on every failure path. -/
def emptySummary : ErrorSummary :=
  { totalErrors := 0, totalWarnings := 0, totalLogs := 0,
    hasJavaScriptErrors := false, hasNetworkErrors := false, hasConsoleLogs := false }

/-- A width/height pair (content size, viewport size, original size). -/
structure Dim where
  width : Nat
  height : Nat
  deriving DecidableEq, Repr

/-- A requested viewport breakpoint. -/
structure Breakpoint where
  width : Nat
  deriving DecidableEq, Repr

/-- The default breakpoints: mobile, tablet, desktop. -/
def DEFAULT_BREAKPOINTS : List Breakpoint :=
  [{ width := 375 }, { width := 768 }, { width := 1280 }]

/-- A cookie specification supplied by the caller. -/
structure CookieSpec where
  name : String
  value : String
  domain : Option String := none
  path : Option String := none
  expires : Option Int := none
  httpOnly : Option Bool := none
  secure : Option Bool := none
  sameSite : Option String := none
  deriving DecidableEq, Repr

/-- The parameter record passed to `page.setCookie` for one cookie:
`domain` defaults to the request URL host, `path` to `/`. -/
structure CookieParam where
  name : String
  value : String
  domain : String
  path : String
  expires : Option Int := none
  httpOnly : Option Bool := none
  secure : Option Bool := none
  sameSite : Option String := none
  deriving DecidableEq, Repr

/-- The record built for one cookie inside `setCookies`. -/
def cookieToSet (host : String) (c : CookieSpec) : CookieParam :=
  { name := c.name, value := c.value, domain := jsOrElse c.domain host,
    path := jsOrElse c.path "/", expires := c.expires, httpOnly := c.httpOnly,
    secure := c.secure, sameSite := c.sameSite }

/-- Model of `setCookies(page, cookies, url)`: an empty list returns early;
otherwise `new URL(url)` is evaluated (its outcome, the parsed hostname or a
parse error, is supplied by the environment) and each cookie is set with
individual failures swallowed, so the only escalation is the URL parse. -/
def setCookies (urlHost : Except String String) (cookies : List CookieSpec) :
    Except String (List CookieParam) :=
  if cookies.length == 0 then Except.ok []
  else
    match urlHost with
    | Except.error e => Except.error e
    | Except.ok host => Except.ok (cookies.map (cookieToSet host))

/-- The clip rectangle of a screenshot. -/
structure Clip where
  x : Nat
  y : Nat
  width : Nat
  height : Nat
  deriving DecidableEq, Repr

/-- The options object handed to `page.screenshot`. -/
structure ScreenshotOptions where
  fullPage : Bool
  encoding : String
  type : String
  quality : Option Nat
  clip : Option Clip
  deriving DecidableEq, Repr

/-- Construction of the screenshot options for one breakpoint: JPEG carries
the quality, and when the breakpoint is being optimized the render region is
clipped to `(0, 0, maxWidth, measured height)`. -/
def mkScreenshotOptions (imageFormat : String) (quality : Nat)
    (shouldOptimize : Bool) (maxWidth contentHeight : Nat) : ScreenshotOptions :=
  { fullPage := true
    encoding := "base64"
    type := if imageFormat == "jpeg" then "jpeg" else "png"
    quality := if imageFormat == "jpeg" then some quality else none
    clip :=
      if shouldOptimize then
        some { x := 0, y := 0, width := maxWidth, height := contentHeight }
      else none }

/-- Per-viewport metadata of a capture. -/
structure CaptureMetadata where
  viewport : Dim
  actualContentSize : Dim
  loadTime : Nat
  timestamp : String
  optimized : Bool
  originalSize : Option Dim := none
  deriving DecidableEq, Repr

/-- One entry of the `screenshots` array of a result. -/
structure Capture where
  width : Nat
  height : Nat
  screenshot : String
  format : String
  metadata : CaptureMetadata
  deriving DecidableEq, Repr

/-- Assembly of one `results.push(...)` record for a breakpoint: effective
width is clamped to `maxWidth` when the requested width exceeds it, the
layout viewport keeps the requested width, and the pre-clamp size is
preserved exactly when clamping occurred. -/
def mkCapture (bp : Breakpoint) (maxWidth : Nat) (imageFormat : String)
    (dims : Dim) (shot : String) (loadTime : Nat) (timestamp : String) : Capture :=
  let shouldOptimize : Bool := decide (bp.width > maxWidth)
  let mimeType := if imageFormat == "jpeg" then "image/jpeg" else "image/png"
  { width := if shouldOptimize then maxWidth else bp.width
    height := dims.height
    screenshot := "data:" ++ mimeType ++ ";base64," ++ shot
    format := imageFormat
    metadata :=
      { viewport := { width := bp.width, height := 800 }
        actualContentSize := dims
        loadTime := loadTime
        timestamp := timestamp
        optimized := shouldOptimize
        originalSize :=
          if shouldOptimize then some { width := bp.width, height := dims.height }
          else none } }

/-- Environment-determined outcomes for one viewport iteration: the result
of `page.goto`, of each attempted action effect (indexed by attempt order
within the iteration), the measured content size, the result of
`page.screenshot` (base64 data on success), the elapsed wall time, and the
capture timestamp string. -/
structure ViewportEnv where
  gotoResult : Except String Unit
  actionEffects : Nat → Except String Unit
  dims : Dim
  shotResult : Except String String
  loadTime : Nat
  timestamp : String

/-- Environment-determined outcomes for one whole `screenshotTool` run:
the outcome of `puppeteer.launch` (a fresh browser handle on success), the
outcome of `new URL(url).hostname`, the outcomes of each viewport iteration
(by breakpoint index), and the page events observed by the diagnostics
handlers. -/
structure RunEnv where
  launchResult : Except String Browser
  urlHost : Except String String
  viewports : Nat → ViewportEnv
  events : List PageEvent

/-- The `for (const breakpoint of breakpoints)` loop of `screenshotTool`,
carrying the iteration index that selects the environment outcomes.  Steps
per iteration, in source order: set viewport (requested width, height 800),
set cookies when supplied, navigate, run actions when supplied, measure
content size, render (clipped when optimizing), push the capture record.
The first throw aborts the loop and propagates. -/
def runViewports (env : RunEnv) (cookies : Option (List CookieSpec))
    (actions : List PageAction) (maxWidth : Nat) (imageFormat : String)
    (quality : Nat) : List Breakpoint → Nat → Except String (List Capture)
  | [], _ => Except.ok []
  | bp :: rest, i =>
    let ve := env.viewports i
    let cookieStep : Except String Unit :=
      match cookies with
      | some cs =>
        if cs.length > 0 then
          match setCookies env.urlHost cs with
          | Except.error e => Except.error e
          | Except.ok _ => Except.ok ()
        else Except.ok ()
      | none => Except.ok ()
    match cookieStep with
    | Except.error e => Except.error e
    | Except.ok _ =>
      match ve.gotoResult with
      | Except.error e => Except.error e
      | Except.ok _ =>
        match (if actions.length > 0 then actionsOutcome ve.actionEffects actions
               else Except.ok ()) with
        | Except.error e => Except.error e
        | Except.ok _ =>
          let dims := ve.dims
          let _opts := mkScreenshotOptions imageFormat quality
            (decide (bp.width > maxWidth)) maxWidth dims.height
          match ve.shotResult with
          | Except.error e => Except.error e
          | Except.ok shot =>
            match runViewports env cookies actions maxWidth imageFormat quality
                rest (i + 1) with
            | Except.error e => Except.error e
            | Except.ok caps =>
              Except.ok
                (mkCapture bp maxWidth imageFormat dims shot ve.loadTime ve.timestamp
                  :: caps)

/-- Session metadata attached to a successful result when a session was used. -/
structure SessionInfo where
  sessionId : String
  userDataDir : String
  persistent : Bool
  deriving DecidableEq, Repr

/-- The result record of `screenshotTool`. -/
structure ScreenshotResult where
  success : Bool
  screenshots : List Capture
  pageErrors : List PageError
  errorSummary : ErrorSummary
  error : Option String := none
  sessionInfo : Option SessionInfo := none
  deriving DecidableEq, Repr

/-- The normalized failure result: produced verbatim by the missing-URL
branch and by the catch-all handler of `screenshotTool`. -/
def mkFailure (e : String) : ScreenshotResult :=
  { success := false, screenshots := [], pageErrors := [],
    errorSummary := emptySummary, error := some e, sessionInfo := none }

/-- The caller-supplied argument object; a `none` field is an absent
(JavaScript `undefined`) property, so destructuring defaults apply to it. -/
structure ScreenshotArgs where
  url : Option String := none
  breakpoints : Option (List Breakpoint) := none
  headless : Option Bool := none
  waitFor : Option String := none
  timeout : Option Nat := none
  maxWidth : Option Nat := none
  imageFormat : Option String := none
  quality : Option Nat := none
  actions : Option (List PageAction) := none
  sessionId : Option String := none
  userDataDir : Option String := none
  cookies : Option (List CookieSpec) := none

/-- Model of `screenshotTool(args)` acting on the process-wide pool state.
Returns the result record, the pool state after the run, and the launch
attempt (if any) made by `getBrowser`.  The navigation wait condition and
timeout only parameterize `page.goto`, whose outcome the environment fixes,
so they are read but otherwise unused in the model. -/
def screenshotTool (tmpdir : String) (env : RunEnv) (args : ScreenshotArgs)
    (st : PoolState) : ScreenshotResult × PoolState × Option LaunchCall :=
  let breakpoints := args.breakpoints.getD DEFAULT_BREAKPOINTS
  let headless := args.headless.getD true
  let _waitFor := args.waitFor.getD "networkidle0"
  let _timeout := args.timeout.getD 30000
  let maxWidth := args.maxWidth.getD 1280
  let imageFormat := args.imageFormat.getD "jpeg"
  let quality := args.quality.getD 80
  let actions := args.actions.getD []
  let finalUserDataDir := resolveUserDataDir tmpdir args.sessionId args.userDataDir
  if !strTruthy args.url then (mkFailure "URL is required", st, none)
  else
    match getBrowser tmpdir env.launchResult headless args.sessionId args.userDataDir st with
    | (Except.error e, st1, lc) => (mkFailure e, st1, lc)
    | (Except.ok _browser, st1, lc) =>
      let pageErrors := collectPageErrors env.events
      match runViewports env args.cookies actions maxWidth imageFormat quality
          breakpoints 0 with
      | Except.error e => (mkFailure e, st1, lc)
      | Except.ok results =>
        let errorSummary := mkSummary pageErrors
        let sessionInfo :=
          if strTruthy args.sessionId then
            some { sessionId := (args.sessionId.getD "")
                   userDataDir :=
                     jsOrElse finalUserDataDir
                       (tmpSessionsDir tmpdir (args.sessionId.getD ""))
                   persistent := true }
          else (none : Option SessionInfo)
        ({ success := true, screenshots := results, pageErrors := pageErrors,
           errorSummary := errorSummary, error := none, sessionInfo := sessionInfo },
         st1, lc)

/-- An action that claim C4 flags as invalid: one of the listed kinds with
its required field missing (or empty, which the duck-typed check treats the
same), or an unrecognized action type. -/
def badAction (a : PageAction) : Prop :=
  (a.type = "click" ∧ strTruthy a.selector = false) ∨
  (a.type = "type" ∧ (strTruthy a.selector = false ∨ strTruthy a.text = false)) ∨
  (a.type = "clear" ∧ strTruthy a.selector = false) ∨
  (a.type = "hover" ∧ strTruthy a.selector = false) ∨
  (a.type = "select" ∧ (strTruthy a.selector = false ∨ strTruthy a.value = false)) ∨
  (a.type = "waitForElement" ∧ strTruthy a.selector = false) ∨
  (a.type = "navigate" ∧ strTruthy a.url = false) ∨
  (a.type ≠ "click" ∧ a.type ≠ "type" ∧ a.type ≠ "clear" ∧ a.type ≠ "scroll" ∧
    a.type ≠ "hover" ∧ a.type ≠ "select" ∧ a.type ≠ "wait" ∧
    a.type ≠ "waitForElement" ∧ a.type ≠ "navigate")

/-- A connected browser handle used as a concrete launch result. -/
def okBrowser : Browser := { id := 1, connected := true }

/-- A benign viewport environment: navigation, action effects and rendering
all succeed, the content measures 1280 by 2000. -/
def okViewportEnv : ViewportEnv :=
  { gotoResult := Except.ok (), actionEffects := fun _ => Except.ok (),
    dims := { width := 1280, height := 2000 }, shotResult := Except.ok "IMG",
    loadTime := 5, timestamp := "2024-01-01T00:00:00.000Z" }

/-- A benign run environment: the launch succeeds with `okBrowser`, the URL
parses, every viewport iteration succeeds, and no page events occur. -/
def okRunEnv : RunEnv :=
  { launchResult := Except.ok okBrowser, urlHost := Except.ok "example.com",
    viewports := fun _ => okViewportEnv, events := [] }

/-- A run environment in which navigation times out at every viewport while
a console event was already observed; used to witness the failure shape. -/
def failRunEnv : RunEnv :=
  { launchResult := Except.ok okBrowser, urlHost := Except.ok "example.com",
    viewports := fun _ =>
      { gotoResult := Except.error "Navigation timeout of 30000 ms exceeded",
        actionEffects := fun _ => Except.ok (),
        dims := { width := 0, height := 0 }, shotResult := Except.ok "",
        loadTime := 0, timestamp := "" },
    events := [PageEvent.console "log" "hello" none none none "t"] }

/-! Helper lemmas about the pool map. -/

lemma lookupEntry_eraseEntry_ne (k sk : String) (h : k ≠ sk) (st : PoolState) :
    lookupEntry k (eraseEntry sk st) = lookupEntry k st := by
  induction st with
  | nil => rfl
  | cons e rest ih =>
    obtain ⟨k', b⟩ := e
    by_cases hks : k' = sk
    · subst hks
      simp [eraseEntry, lookupEntry, Ne.symm h]
    · by_cases hkk : k' = k
      · subst hkk
        simp [eraseEntry, lookupEntry, hks]
      · simp [eraseEntry, lookupEntry, hks, hkk, ih]

lemma lookupEntry_setEntry_ne (k sk : String) (b : Browser) (h : k ≠ sk) (st : PoolState) :
    lookupEntry k (setEntry sk b st) = lookupEntry k st := by
  induction st with
  | nil => simp [setEntry, lookupEntry, Ne.symm h]
  | cons e rest ih =>
    obtain ⟨k', b'⟩ := e
    by_cases hks : k' = sk
    · subst hks
      simp [setEntry, lookupEntry, Ne.symm h]
    · by_cases hkk : k' = k
      · subst hkk
        simp [setEntry, lookupEntry, hks]
      · simp [setEntry, lookupEntry, hks, hkk, ih]

lemma getBrowser_connected_preserved (tmpdir : String) (lr : Except String Browser)
    (hl : Bool) (sid udd : Option String) (st : PoolState) (k : String) (b : Browser)
    (hb : lookupEntry k st = some b) (hc : b.connected = true) :
    lookupEntry k (getBrowser tmpdir lr hl sid udd st).2.1 = some b := by
  simp only [getBrowser]
  cases hlook : lookupEntry (sessionKeyOf sid) st with
  | some browser =>
    by_cases hcon : browser.connected
    · simp [hcon, hb]
    · by_cases hk : k = sessionKeyOf sid
      · subst hk
        rw [hb] at hlook
        cases hlook
        exact absurd hc (by simp [hcon])
      · unfold launchBrowser
        cases lr with
        | error e => simp [hcon, lookupEntry_eraseEntry_ne k _ hk, hb]
        | ok fresh =>
          simp [hcon, lookupEntry_setEntry_ne k _ fresh hk,
            lookupEntry_eraseEntry_ne k _ hk, hb]
  | none =>
    by_cases hk : k = sessionKeyOf sid
    · subst hk
      rw [hb] at hlook
      cases hlook
    · unfold launchBrowser
      cases lr with
      | error e => simpa using hb
      | ok fresh => simp [lookupEntry_setEntry_ne k _ fresh hk, hb]

/-- C5: for every request whose url is empty or missing, the result is the
failure record with message `URL is required`, the pool state is returned
unchanged (the session map gains no entry), and no launch is attempted. -/
theorem C5_theorem (tmpdir : String) (env : RunEnv) (args : ScreenshotArgs)
    (st : PoolState) (hurl : args.url = none ∨ args.url = some "") :
    screenshotTool tmpdir env args st = (mkFailure "URL is required", st, none) := by
  rcases hurl with h | h <;> simp [screenshotTool, strTruthy, h]

/-- C5 witness: concrete evaluation at a request with a missing url. -/
theorem C5_witness :
    screenshotTool "/tmp"
        { launchResult := Except.ok { id := 1, connected := true },
          urlHost := Except.ok "example.com",
          viewports := fun _ =>
            { gotoResult := Except.ok (), actionEffects := fun _ => Except.ok (),
              dims := { width := 0, height := 0 }, shotResult := Except.ok "",
              loadTime := 0, timestamp := "" },
          events := [] }
        {} [] = (mkFailure "URL is required", [], none) :=
  C5_theorem "/tmp" _ {} [] (Or.inl rfl)

/-- C10: an acquire call whose session key maps to a connected browser
returns that browser with the pool unchanged and no launch attempted, and the
whole outcome is independent of the headless flag and of the explicit
profile-directory argument of the call. -/
theorem C10_theorem (tmpdir : String) (lr : Except String Browser) (h1 h2 : Bool)
    (sid u1 u2 : Option String) (st : PoolState) (b : Browser)
    (hlook : lookupEntry (sessionKeyOf sid) st = some b) (hconn : b.connected = true) :
    getBrowser tmpdir lr h1 sid u1 st = (Except.ok b, st, none) ∧
    getBrowser tmpdir lr h1 sid u1 st = getBrowser tmpdir lr h2 sid u2 st := by
  constructor
  · simp [getBrowser, hlook, hconn]
  · simp [getBrowser, hlook, hconn]

/-- C10 witness: concrete reuse of a connected browser under key `s1`,
with differing headless flags and profile arguments. -/
theorem C10_witness :
    getBrowser "/tmp" (Except.error "no launch") true (some "s1") none
        [("s1", { id := 7, connected := true })] =
      (Except.ok { id := 7, connected := true },
        [("s1", { id := 7, connected := true })], none) ∧
    getBrowser "/tmp" (Except.error "no launch") true (some "s1") none
        [("s1", { id := 7, connected := true })] =
      getBrowser "/tmp" (Except.error "no launch") false (some "s1") (some "/custom")
        [("s1", { id := 7, connected := true })] :=
  C10_theorem "/tmp" (Except.error "no launch") true false (some "s1") none
    (some "/custom") [("s1", { id := 7, connected := true })]
    { id := 7, connected := true } rfl rfl

/-- C3: the session pool keeps at most one live browser per session key:
a connected entry under the key is returned unchanged with no launch; a
disconnected entry is evicted before the new launch is stored under the same
key; the default key is used when no session identifier is supplied; and the
profile directory resolves to the explicit path when one is given, else to
the deterministic temp-root path derived from the session identifier, else
to no persistent profile. -/
theorem C3_theorem (tmpdir : String) (lr : Except String Browser) (hl : Bool)
    (sid udd : Option String) (st : PoolState) :
    (∀ b, lookupEntry (sessionKeyOf sid) st = some b → b.connected = true →
      getBrowser tmpdir lr hl sid udd st = (Except.ok b, st, none)) ∧
    (∀ b fresh, lookupEntry (sessionKeyOf sid) st = some b → b.connected = false →
      lr = Except.ok fresh →
      getBrowser tmpdir lr hl sid udd st =
        (Except.ok fresh,
          setEntry (sessionKeyOf sid) fresh (eraseEntry (sessionKeyOf sid) st),
          some { headless := hl, userDataDir := resolveUserDataDir tmpdir sid udd })) ∧
    sessionKeyOf none = "default" ∧
    (∀ u, u ≠ "" → udd = some u → resolveUserDataDir tmpdir sid udd = some u) ∧
    (∀ s, s ≠ "" → sid = some s → (udd = none ∨ udd = some "") →
      resolveUserDataDir tmpdir sid udd = some (tmpSessionsDir tmpdir s)) ∧
    ((sid = none ∨ sid = some "") → (udd = none ∨ udd = some "") →
      resolveUserDataDir tmpdir sid udd = none) := by
  refine ⟨?_, ?_, rfl, ?_, ?_, ?_⟩
  · intro b hlook hconn
    simp [getBrowser, hlook, hconn]
  · intro b fresh hlook hconn hlr
    simp [getBrowser, hlook, hconn, launchBrowser, hlr]
  · intro u hu hudd
    simp [resolveUserDataDir, strTruthy, hudd, hu]
  · intro s hs hsid hudd
    rcases hudd with h | h <;> simp [resolveUserDataDir, strTruthy, hsid, h, hs]
  · intro hsid hudd
    rcases hsid with h1 | h1 <;> rcases hudd with h2 | h2 <;>
      simp [resolveUserDataDir, strTruthy, h1, h2]

/-- C3 witness: eviction of the disconnected entry under `s1` followed by a
launch stored under the same key, with the session-derived profile path. -/
theorem C3_witness :
    getBrowser "/tmp" (Except.ok { id := 9, connected := true }) true (some "s1") none
        [("s1", { id := 7, connected := false })] =
      (Except.ok { id := 9, connected := true },
        [("s1", { id := 9, connected := true })],
        some { headless := true,
               userDataDir := some "/tmp/puppeteer-mcp-sessions/s1" }) ∧
    resolveUserDataDir "/tmp" (some "s1") (some "/explicit") = some "/explicit" :=
  And.intro
    (by
      have h := ( C3_theorem "/tmp" (Except.ok { id := 9, connected := true }) true
        (some "s1") none [("s1", { id := 7, connected := false })]).2.1
        { id := 7, connected := false } { id := 9, connected := true } rfl rfl rfl
      simpa using h)
    (( C3_theorem "/tmp" (Except.ok { id := 9, connected := true }) true
        (some "s1") (some "/explicit") []).2.2.2.1 "/explicit" (by decide) rfl)

/-- C8: diagnostic classification: a console message of type `error` or
`assert` is recorded at level error, type `warning` at level warning, and
every other console type at level info; a completed response reporting a
non-success status yields a record of type network whose level is error
exactly when the status is at least 500 and warning otherwise; a failed
request with a failure reason yields a record of type security when the
reason mentions CORS and network otherwise, always at level error. -/
theorem C8_theorem (mt text : String) (lu : Option String) (ll lc : Option Nat)
    (ts : String) (s : Nat) (stx u rurl et : String) :
    (((mt = "error" ∨ mt = "assert") →
      (classifyEvent (PageEvent.console mt text lu ll lc ts)).map PageError.level =
        some "error") ∧
     (mt = "warning" →
      (classifyEvent (PageEvent.console mt text lu ll lc ts)).map PageError.level =
        some "warning") ∧
     (mt ≠ "error" → mt ≠ "assert" → mt ≠ "warning" →
      (classifyEvent (PageEvent.console mt text lu ll lc ts)).map PageError.level =
        some "info") ∧
     (classifyEvent (PageEvent.console mt text lu ll lc ts)).map PageError.type =
        some "console") ∧
    ((classifyEvent (PageEvent.response false s stx u ts)).map PageError.type =
        some "network" ∧
     (classifyEvent (PageEvent.response false s stx u ts)).map PageError.level =
        some (if s ≥ 500 then "error" else "warning")) ∧
    ((classifyEvent (PageEvent.requestfailed (some et) rurl ts)).map PageError.type =
        some (if strIncludes et "CORS" then "security" else "network") ∧
     (classifyEvent (PageEvent.requestfailed (some et) rurl ts)).map PageError.level =
        some "error") := by
  refine ⟨⟨?_, ?_, ?_, ?_⟩, ⟨?_, ?_⟩, ⟨?_, ?_⟩⟩
  · rintro (h | h) <;> simp [classifyEvent, consoleLevel, h]
  · intro h
    simp [classifyEvent, consoleLevel, h]
  · intro h1 h2 h3
    simp [classifyEvent, consoleLevel, h1, h2, h3]
  · simp [classifyEvent]
  · simp [classifyEvent]
  · by_cases h : s ≥ 500 <;> simp [classifyEvent, h]
  · by_cases h : strIncludes et "CORS" = true <;> simp [classifyEvent, h]
  · simp [classifyEvent]

/-- C8 witness: concrete classifications: an `assert` console message, a 503
and a 404 response, and CORS-mentioning and plain request failures. -/
theorem C8_witness :
    ((("assert" : String) = "error" ∨ ("assert" : String) = "assert") →
      (classifyEvent (PageEvent.console "assert" "boom" none none none "t")).map
          PageError.level = some "error") ∧
    (classifyEvent (PageEvent.response false 503 "Service Unavailable" "u" "t")).map
        PageError.level = some (if 503 ≥ 500 then "error" else "warning") ∧
    (classifyEvent (PageEvent.response false 404 "Not Found" "u" "t")).map
        PageError.level = some (if 404 ≥ 500 then "error" else "warning") ∧
    (classifyEvent (PageEvent.requestfailed (some "net::ERR_FAILED CORS policy") "u" "t")).map
        PageError.type =
      some (if strIncludes "net::ERR_FAILED CORS policy" "CORS" then "security"
            else "network") ∧
    (classifyEvent (PageEvent.requestfailed (some "net::ERR_CONNECTION_REFUSED") "u" "t")).map
        PageError.type =
      some (if strIncludes "net::ERR_CONNECTION_REFUSED" "CORS" then "security"
            else "network") :=
  ⟨( C8_theorem "assert" "boom" none none none "t" 0 "" "" "" "").1.1,
   ( C8_theorem "" "" none none none "t" 503 "Service Unavailable" "u" "" "").2.1.2,
   ( C8_theorem "" "" none none none "t" 404 "Not Found" "u" "" "").2.1.2,
   ( C8_theorem "" "" none none none "t" 0 "" "u" "" "net::ERR_FAILED CORS policy").2.2.1,
   ( C8_theorem "" "" none none none "t" 0 "" "u" "" "net::ERR_CONNECTION_REFUSED").2.2.1⟩

/-! Helper lemmas about `getBrowser`, `runViewports` and `screenshotTool`
used to settle the claims about the capture pipeline. -/

lemma getBrowser_ok_of_launch_ok (tmpdir : String) (hl : Bool)
    (sid udd : Option String) (st : PoolState) (fresh : Browser) :
    ∃ b1 st1 lc,
      getBrowser tmpdir (Except.ok fresh) hl sid udd st = (Except.ok b1, st1, lc) := by
  simp only [getBrowser]
  cases hlook : lookupEntry (sessionKeyOf sid) st with
  | some browser =>
    by_cases hcon : browser.connected
    · exact ⟨browser, st, none, by simp [hcon]⟩
    · exact ⟨fresh, setEntry (sessionKeyOf sid) fresh (eraseEntry (sessionKeyOf sid) st),
        some { headless := hl, userDataDir := resolveUserDataDir tmpdir sid udd },
        by simp [hcon, launchBrowser]⟩
  | none =>
    exact ⟨fresh, setEntry (sessionKeyOf sid) fresh st,
      some { headless := hl, userDataDir := resolveUserDataDir tmpdir sid udd },
      by simp [launchBrowser]⟩

lemma screenshotTool_eq_of_run_error (tmpdir : String) (env : RunEnv)
    (args : ScreenshotArgs) (st : PoolState) (b1 : Browser) (st1 : PoolState)
    (lc : Option LaunchCall) (e : String)
    (h1 : strTruthy args.url = true)
    (hg : getBrowser tmpdir env.launchResult (args.headless.getD true) args.sessionId
        args.userDataDir st = (Except.ok b1, st1, lc))
    (hr : runViewports env args.cookies (args.actions.getD []) (args.maxWidth.getD 1280)
        (args.imageFormat.getD "jpeg") (args.quality.getD 80)
        (args.breakpoints.getD DEFAULT_BREAKPOINTS) 0 = Except.error e) :
    screenshotTool tmpdir env args st = (mkFailure e, st1, lc) := by
  simp [screenshotTool, h1, hg, hr]

lemma screenshotTool_eq_of_run_ok (tmpdir : String) (env : RunEnv)
    (args : ScreenshotArgs) (st : PoolState) (b1 : Browser) (st1 : PoolState)
    (lc : Option LaunchCall) (caps : List Capture)
    (h1 : strTruthy args.url = true)
    (hg : getBrowser tmpdir env.launchResult (args.headless.getD true) args.sessionId
        args.userDataDir st = (Except.ok b1, st1, lc))
    (hr : runViewports env args.cookies (args.actions.getD []) (args.maxWidth.getD 1280)
        (args.imageFormat.getD "jpeg") (args.quality.getD 80)
        (args.breakpoints.getD DEFAULT_BREAKPOINTS) 0 = Except.ok caps) :
    screenshotTool tmpdir env args st =
      ({ success := true, screenshots := caps,
         pageErrors := collectPageErrors env.events,
         errorSummary := mkSummary (collectPageErrors env.events),
         error := none,
         sessionInfo :=
           if strTruthy args.sessionId then
             some { sessionId := (args.sessionId.getD "")
                    userDataDir :=
                      jsOrElse (resolveUserDataDir tmpdir args.sessionId args.userDataDir)
                        (tmpSessionsDir tmpdir (args.sessionId.getD ""))
                    persistent := true }
           else none }, st1, lc) := by
  simp [screenshotTool, h1, hg, hr]

lemma screenshotTool_success_viewports (tmpdir : String) (env : RunEnv)
    (args : ScreenshotArgs) (st : PoolState)
    (h : (screenshotTool tmpdir env args st).1.success = true) :
    ∃ caps,
      runViewports env args.cookies (args.actions.getD []) (args.maxWidth.getD 1280)
        (args.imageFormat.getD "jpeg") (args.quality.getD 80)
        (args.breakpoints.getD DEFAULT_BREAKPOINTS) 0 = Except.ok caps ∧
      (screenshotTool tmpdir env args st).1.screenshots = caps := by
  cases h1 : strTruthy args.url with
  | false =>
    exfalso
    simp [screenshotTool, h1, mkFailure] at h
  | true =>
    rcases hg : getBrowser tmpdir env.launchResult (args.headless.getD true) args.sessionId
        args.userDataDir st with ⟨gb, st1, lc⟩
    cases gb with
    | error e =>
      exfalso
      simp [screenshotTool, h1, hg, mkFailure] at h
    | ok b1 =>
      cases hr : runViewports env args.cookies (args.actions.getD [])
          (args.maxWidth.getD 1280) (args.imageFormat.getD "jpeg")
          (args.quality.getD 80) (args.breakpoints.getD DEFAULT_BREAKPOINTS) 0 with
      | error e =>
        exfalso
        simp [screenshotTool, h1, hg, hr, mkFailure] at h
      | ok caps =>
        exact ⟨caps, rfl, by simp [screenshotTool, h1, hg, hr]⟩

lemma runViewports_head_action_error (env : RunEnv) (a : PageAction)
    (acts : List PageAction) (mw : Nat) (fmt : String) (q : Nat)
    (bp : Breakpoint) (rest : List Breakpoint) (i : Nat) (m : String)
    (hgoto : (env.viewports i).gotoResult = Except.ok ())
    (ha : runAction ((env.viewports i).actionEffects 0) a = Except.error m) :
    runViewports env none (a :: acts) mw fmt q (bp :: rest) i = Except.error m := by
  simp [runViewports, hgoto, actionsOutcome, executePageActions, execActionsGo, ha]

/-- C9: a Type action whose text field is the empty string and a Select
action whose value field is the empty string are rejected by the validation
of the executor with the missing-field message naming the action type, no
action of the sequence executes, and a request carrying such a sequence
fails with that message. -/
theorem C9_theorem (effn : Except String Unit) (eff : Nat → Except String Unit)
    (sel : Option String) (rest : List PageAction) (tmpdir : String) (env : RunEnv)
    (st : PoolState) (u : String) (b : Browser) :
    runAction effn { type := "type", selector := sel, text := some "" } =
      Except.error "Failed to execute action type: Type action requires selector and text" ∧
    runAction effn { type := "select", selector := sel, value := some "" } =
      Except.error "Failed to execute action select: Select action requires selector and value" ∧
    executePageActions eff ({ type := "type", selector := sel, text := some "" } :: rest) =
      ([], some "Failed to execute action type: Type action requires selector and text") ∧
    executePageActions eff ({ type := "select", selector := sel, value := some "" } :: rest) =
      ([], some "Failed to execute action select: Select action requires selector and value") ∧
    (u ≠ "" → env.launchResult = Except.ok b → (env.viewports 0).gotoResult = Except.ok () →
      (screenshotTool tmpdir env
          { url := some u,
            actions := some ({ type := "type", selector := sel, text := some "" } :: rest) }
          st).1 =
        mkFailure "Failed to execute action type: Type action requires selector and text") := by
  refine ⟨?_, ?_, ?_, ?_, ?_⟩
  · simp [runAction, runActionCase, strTruthy]
  · simp [runAction, runActionCase, strTruthy]
  · simp [executePageActions, execActionsGo, runAction, runActionCase, strTruthy]
  · simp [executePageActions, execActionsGo, runAction, runActionCase, strTruthy]
  · intro hu hlaunch hgoto
    obtain ⟨b1, st1, lc, hg⟩ := getBrowser_ok_of_launch_ok tmpdir true none none st b
    have hr := runViewports_head_action_error env
      { type := "type", selector := sel, text := some "" } rest 1280 "jpeg" 80
      { width := 375 } [{ width := 768 }, { width := 1280 }] 0
      "Failed to execute action type: Type action requires selector and text" hgoto
      (by simp [runAction, runActionCase, strTruthy])
    have heq := screenshotTool_eq_of_run_error tmpdir env
      { url := some u,
        actions := some ({ type := "type", selector := sel, text := some "" } :: rest) }
      st b1 st1 lc
      "Failed to execute action type: Type action requires selector and text"
      (by simp [strTruthy, hu]) (by simpa [hlaunch] using hg) (by simpa using hr)
    simp [heq]

/-- C9 witness: a concrete request whose only action is a Type action with
empty text fails with the missing-field message. -/
theorem C9_witness :
    (screenshotTool "/tmp" okRunEnv
        { url := some "https://example.com",
          actions := some [{ type := "type", selector := some "#a", text := some "" }] }
        []).1 =
      mkFailure "Failed to execute action type: Type action requires selector and text" :=
  (C9_theorem (Except.ok ()) (fun _ => Except.ok ()) (some "#a") [] "/tmp" okRunEnv []
    "https://example.com" okBrowser).2.2.2.2 (by decide) rfl rfl

lemma runAction_bad (eff : Except String Unit) (a : PageAction) (h : badAction a) :
    ∃ m, runAction eff a =
      Except.error ("Failed to execute action " ++ a.type ++ ": " ++ m) := by
  rcases h with ⟨ht, hf⟩ | ⟨ht, hf⟩ | ⟨ht, hf⟩ | ⟨ht, hf⟩ | ⟨ht, hf⟩ | ⟨ht, hf⟩ |
    ⟨ht, hf⟩ | ⟨h1, h2, h3, h4, h5, h6, h7, h8, h9⟩
  · exact ⟨"Click action requires selector", by simp [runAction, runActionCase, ht, hf]⟩
  · refine ⟨"Type action requires selector and text", ?_⟩
    rcases hf with hf | hf <;> simp [runAction, runActionCase, ht, hf]
  · exact ⟨"Clear action requires selector", by simp [runAction, runActionCase, ht, hf]⟩
  · exact ⟨"Hover action requires selector", by simp [runAction, runActionCase, ht, hf]⟩
  · refine ⟨"Select action requires selector and value", ?_⟩
    rcases hf with hf | hf <;> simp [runAction, runActionCase, ht, hf]
  · exact ⟨"WaitForElement action requires selector",
      by simp [runAction, runActionCase, ht, hf]⟩
  · exact ⟨"Navigate action requires url", by simp [runAction, runActionCase, ht, hf]⟩
  · exact ⟨"Unknown action type: " ++ a.type,
      by simp [runAction, runActionCase, h1, h2, h3, h4, h5, h6, h7, h8, h9]⟩

lemma execActionsGo_append (eff : Nat → Except String Unit) (pre : List PageAction) :
    ∀ (i : Nat) (a : PageAction) (post : List PageAction) (m : String),
      (∀ j (hj : j < pre.length), runAction (eff (i + j)) (pre.get ⟨j, hj⟩) = Except.ok ()) →
      runAction (eff (i + pre.length)) a = Except.error m →
      execActionsGo eff i (pre ++ a :: post) = (pre, some m) := by
  induction pre with
  | nil =>
    intro i a post m _ ha
    simp only [List.length_nil, Nat.add_zero] at ha
    simp [execActionsGo, ha]
  | cons p pre' ih =>
    intro i a post m hpre ha
    have h0 : runAction (eff i) p = Except.ok () := by
      have := hpre 0 (by simp)
      simpa using this
    have ihr := ih (i + 1) a post m
      (fun j hj => by
        have := hpre (j + 1) (by simpa using Nat.succ_lt_succ hj)
        simpa [Nat.add_assoc, Nat.add_comm 1 j] using this)
      (by
        have : i + 1 + pre'.length = i + (p :: pre').length := by
          simp [Nat.add_assoc, Nat.add_comm 1 pre'.length]
        rw [this]
        exact ha)
    simp [execActionsGo, h0, ihr]

/-- C4: a sequence containing an action with a missing required field of the
listed kinds, or an unrecognized action type, fails at that action with a
message naming the action type: the actions before it are the only ones that
execute, nothing after it runs, and a request carrying such a sequence fails
with the same message. -/
theorem C4_theorem (eff : Nat → Except String Unit) (pre : List PageAction)
    (a : PageAction) (post : List PageAction) (tmpdir : String) (env : RunEnv)
    (st : PoolState) (u : String) (b : Browser) (hbad : badAction a) :
    ((∀ j (hj : j < pre.length), runAction (eff j) (pre.get ⟨j, hj⟩) = Except.ok ()) →
      ∃ m, executePageActions eff (pre ++ a :: post) =
        (pre, some ("Failed to execute action " ++ a.type ++ ": " ++ m))) ∧
    (u ≠ "" → env.launchResult = Except.ok b →
      (env.viewports 0).gotoResult = Except.ok () →
      ∃ m, (screenshotTool tmpdir env { url := some u, actions := some (a :: post) } st).1 =
        mkFailure ("Failed to execute action " ++ a.type ++ ": " ++ m)) := by
  constructor
  · intro hpre
    obtain ⟨m, hm⟩ := runAction_bad (eff pre.length) a hbad
    refine ⟨m, ?_⟩
    have := execActionsGo_append eff pre 0 a post
      ("Failed to execute action " ++ a.type ++ ": " ++ m)
      (fun j hj => by simpa [Nat.zero_add] using hpre j hj)
      (by simpa [Nat.zero_add] using hm)
    simpa [executePageActions] using this
  · intro hu hlaunch hgoto
    obtain ⟨b1, st1, lc, hg⟩ := getBrowser_ok_of_launch_ok tmpdir true none none st b
    obtain ⟨m, hm⟩ := runAction_bad ((env.viewports 0).actionEffects 0) a hbad
    have hr := runViewports_head_action_error env a post 1280 "jpeg" 80
      { width := 375 } [{ width := 768 }, { width := 1280 }] 0
      ("Failed to execute action " ++ a.type ++ ": " ++ m) hgoto hm
    have heq := screenshotTool_eq_of_run_error tmpdir env
      { url := some u, actions := some (a :: post) } st b1 st1 lc
      ("Failed to execute action " ++ a.type ++ ": " ++ m)
      (by simp [strTruthy, hu]) (by simpa [hlaunch] using hg) (by simpa using hr)
    exact ⟨m, by simp [heq]⟩

/-- C4 witness: a concrete sequence wait, click-without-selector, hover:
only the wait executes, the error names the click action, and the concrete
request fails. -/
theorem C4_witness :
    (∃ m, executePageActions (fun _ => Except.ok ())
        [{ type := "wait" }, { type := "click" }, { type := "hover", selector := some "#a" }] =
      ([{ type := "wait" }], some ("Failed to execute action " ++ "click" ++ ": " ++ m))) ∧
    (∃ m, (screenshotTool "/tmp" okRunEnv
        { url := some "https://example.com",
          actions := some [{ type := "click" },
            { type := "hover", selector := some "#a" }] } []).1 =
      mkFailure ("Failed to execute action " ++ "click" ++ ": " ++ m)) := by
  have h := C4_theorem (fun _ => Except.ok ()) [{ type := "wait" }] { type := "click" }
    [{ type := "hover", selector := some "#a" }] "/tmp" okRunEnv []
    "https://example.com" okBrowser (Or.inl ⟨rfl, rfl⟩)
  refine ⟨?_, h.2 (by decide) rfl rfl⟩
  have h1 := h.1 (fun j hj => by
    have : j = 0 := Nat.lt_one_iff.mp (by simpa using hj)
    subst this
    rfl)
  simpa using h1

lemma runViewports_ok_forall2 (env : RunEnv) (cookies : Option (List CookieSpec))
    (actions : List PageAction) (mw : Nat) (fmt : String) (q : Nat) :
    ∀ (bps : List Breakpoint) (i : Nat) (caps : List Capture),
      runViewports env cookies actions mw fmt q bps i = Except.ok caps →
      List.Forall₂
        (fun (cap : Capture) (bp : Breakpoint) =>
          ∃ dims shot lt ts, cap = mkCapture bp mw fmt dims shot lt ts)
        caps bps := by
  intro bps
  induction bps with
  | nil =>
    intro i caps h
    simp only [runViewports, Except.ok.injEq] at h
    subst h
    exact List.Forall₂.nil
  | cons bp rest ih =>
    intro i caps h
    simp only [runViewports] at h
    split at h
    · exact absurd h (by simp)
    · split at h
      · exact absurd h (by simp)
      · split at h
        · exact absurd h (by simp)
        · split at h
          · exact absurd h (by simp)
          · split at h
            · exact absurd h (by simp)
            · rename_i shot hshot caps' hrec
              rw [Except.ok.injEq] at h
              subst h
              exact List.Forall₂.cons ⟨_, _, _, _, rfl⟩ (ih (i + 1) caps' hrec)

lemma mkCapture_clamp (bp : Breakpoint) (mw : Nat) (fmt : String) (dims : Dim)
    (shot : String) (lt : Nat) (ts : String) :
    (bp.width > mw →
      (mkCapture bp mw fmt dims shot lt ts).width = mw ∧
      (mkCapture bp mw fmt dims shot lt ts).metadata.optimized = true ∧
      (mkCapture bp mw fmt dims shot lt ts).metadata.originalSize =
        some { width := bp.width,
               height := (mkCapture bp mw fmt dims shot lt ts).metadata.actualContentSize.height } ∧
      (mkCapture bp mw fmt dims shot lt ts).metadata.viewport.width = bp.width) ∧
    (bp.width ≤ mw →
      (mkCapture bp mw fmt dims shot lt ts).width = bp.width ∧
      (mkCapture bp mw fmt dims shot lt ts).metadata.optimized = false ∧
      (mkCapture bp mw fmt dims shot lt ts).metadata.originalSize = none ∧
      (mkCapture bp mw fmt dims shot lt ts).metadata.viewport.width = bp.width) := by
  by_cases h : bp.width > mw
  · refine ⟨fun _ => ?_, fun h2 => absurd h (by omega)⟩
    simp [mkCapture, h]
  · refine ⟨fun h2 => absurd h2 h, fun _ => ?_⟩
    simp [mkCapture, h]

lemma forall2_viewport_widths (mw : Nat) (fmt : String) (caps : List Capture)
    (bps : List Breakpoint)
    (h : List.Forall₂
      (fun (cap : Capture) (bp : Breakpoint) =>
        ∃ dims shot lt ts, cap = mkCapture bp mw fmt dims shot lt ts)
      caps bps) :
    caps.map (fun c => c.metadata.viewport.width) = bps.map Breakpoint.width := by
  induction h with
  | nil => rfl
  | cons hcb _ ihr =>
    obtain ⟨dims, shot, lt, ts, rfl⟩ := hcb
    simp [mkCapture, ihr]

/-- C2: in every successful result, a capture whose requested width exceeds
the configured maxWidth has effective width maxWidth, `optimized` true, and
original size recording the requested width (with the layout viewport still
set to the requested width and the render clipped to maxWidth); a capture
whose requested width is at most maxWidth keeps its width, has `optimized`
false, and carries no original size. -/
theorem C2_theorem (tmpdir : String) (env : RunEnv) (args : ScreenshotArgs)
    (st : PoolState) (h : (screenshotTool tmpdir env args st).1.success = true) :
    List.Forall₂
      (fun (cap : Capture) (bp : Breakpoint) =>
        (bp.width > args.maxWidth.getD 1280 →
          cap.width = args.maxWidth.getD 1280 ∧
          cap.metadata.optimized = true ∧
          cap.metadata.originalSize =
            some { width := bp.width, height := cap.metadata.actualContentSize.height } ∧
          cap.metadata.viewport.width = bp.width) ∧
        (bp.width ≤ args.maxWidth.getD 1280 →
          cap.width = bp.width ∧
          cap.metadata.optimized = false ∧
          cap.metadata.originalSize = none ∧
          cap.metadata.viewport.width = bp.width))
      (screenshotTool tmpdir env args st).1.screenshots
      (args.breakpoints.getD DEFAULT_BREAKPOINTS) ∧
    (∀ fmt q m hgt, (mkScreenshotOptions fmt q true m hgt).clip =
      some { x := 0, y := 0, width := m, height := hgt }) ∧
    (∀ fmt q m hgt, (mkScreenshotOptions fmt q false m hgt).clip = none) := by
  obtain ⟨caps, hr, hs⟩ := screenshotTool_success_viewports tmpdir env args st h
  have hf := runViewports_ok_forall2 env args.cookies (args.actions.getD [])
    (args.maxWidth.getD 1280) (args.imageFormat.getD "jpeg") (args.quality.getD 80)
    (args.breakpoints.getD DEFAULT_BREAKPOINTS) 0 caps hr
  refine ⟨?_, fun fmt q m hgt => by simp [mkScreenshotOptions],
    fun fmt q m hgt => by simp [mkScreenshotOptions]⟩
  rw [hs]
  refine List.Forall₂.imp ?_ hf
  intro cap bp hcb
  obtain ⟨dims, shot, lt, ts, rfl⟩ := hcb
  exact mkCapture_clamp bp (args.maxWidth.getD 1280) (args.imageFormat.getD "jpeg")
    dims shot lt ts

/-- C2 witness: a concrete request at width 1920 with the default maxWidth
of 1280: the capture satisfies the clamping relation. -/
theorem C2_witness :
    List.Forall₂
      (fun (cap : Capture) (bp : Breakpoint) =>
        (bp.width > 1280 →
          cap.width = 1280 ∧
          cap.metadata.optimized = true ∧
          cap.metadata.originalSize =
            some { width := bp.width, height := cap.metadata.actualContentSize.height } ∧
          cap.metadata.viewport.width = bp.width) ∧
        (bp.width ≤ 1280 →
          cap.width = bp.width ∧
          cap.metadata.optimized = false ∧
          cap.metadata.originalSize = none ∧
          cap.metadata.viewport.width = bp.width))
      (screenshotTool "/tmp" okRunEnv
        { url := some "https://x.test", breakpoints := some [{ width := 1920 }] }
        []).1.screenshots
      [{ width := 1920 }] :=
  ( C2_theorem "/tmp" okRunEnv
    { url := some "https://x.test", breakpoints := some [{ width := 1920 }] } [] rfl).1

/-- C6: every successful result contains exactly as many captures as there
are requested viewport widths, and the captures record the requested widths
in the same order. -/
theorem C6_theorem (tmpdir : String) (env : RunEnv) (args : ScreenshotArgs)
    (st : PoolState) (h : (screenshotTool tmpdir env args st).1.success = true) :
    (screenshotTool tmpdir env args st).1.screenshots.length =
      (args.breakpoints.getD DEFAULT_BREAKPOINTS).length ∧
    (screenshotTool tmpdir env args st).1.screenshots.map
        (fun c => c.metadata.viewport.width) =
      (args.breakpoints.getD DEFAULT_BREAKPOINTS).map Breakpoint.width := by
  obtain ⟨caps, hr, hs⟩ := screenshotTool_success_viewports tmpdir env args st h
  have hf := runViewports_ok_forall2 env args.cookies (args.actions.getD [])
    (args.maxWidth.getD 1280) (args.imageFormat.getD "jpeg") (args.quality.getD 80)
    (args.breakpoints.getD DEFAULT_BREAKPOINTS) 0 caps hr
  constructor
  · rw [hs]
    exact hf.length_eq
  · rw [hs]
    exact forall2_viewport_widths (args.maxWidth.getD 1280) (args.imageFormat.getD "jpeg")
      caps (args.breakpoints.getD DEFAULT_BREAKPOINTS) hf

/-- C6 witness: a concrete request with widths 500 and 900 yields two
captures recording those widths in order. -/
theorem C6_witness :
    (screenshotTool "/tmp" okRunEnv
        { url := some "https://example.com",
          breakpoints := some [{ width := 500 }, { width := 900 }] } []).1.screenshots.length =
      2 ∧
    (screenshotTool "/tmp" okRunEnv
        { url := some "https://example.com",
          breakpoints := some [{ width := 500 }, { width := 900 }] } []).1.screenshots.map
        (fun c => c.metadata.viewport.width) =
      [500, 900] := by
  have h := C6_theorem "/tmp" okRunEnv
    { url := some "https://example.com",
      breakpoints := some [{ width := 500 }, { width := 900 }] } [] rfl
  simpa using h

/-- C7: every failing run returns the one normalized failure shape: success
false with some error message, empty screenshots and pageErrors, and the
all-zero summary, never a partial result with prior completed viewports; and
no failure tears down a live session: every connected pool entry survives
the run unchanged. -/
theorem C7_theorem (tmpdir : String) (env : RunEnv) (args : ScreenshotArgs)
    (st : PoolState) :
    ((screenshotTool tmpdir env args st).1.success = false →
      (screenshotTool tmpdir env args st).1.screenshots = [] ∧
      (screenshotTool tmpdir env args st).1.pageErrors = [] ∧
      (screenshotTool tmpdir env args st).1.errorSummary = emptySummary ∧
      ((screenshotTool tmpdir env args st).1.error).isSome = true) ∧
    (∀ k b, lookupEntry k st = some b → b.connected = true →
      lookupEntry k (screenshotTool tmpdir env args st).2.1 = some b) := by
  constructor
  · intro hfail
    cases h1 : strTruthy args.url with
    | false => simp [screenshotTool, h1, mkFailure]
    | true =>
      rcases hg : getBrowser tmpdir env.launchResult (args.headless.getD true)
          args.sessionId args.userDataDir st with ⟨gb, st1, lc⟩
      cases gb with
      | error e => simp [screenshotTool, h1, hg, mkFailure]
      | ok b1 =>
        cases hr : runViewports env args.cookies (args.actions.getD [])
            (args.maxWidth.getD 1280) (args.imageFormat.getD "jpeg")
            (args.quality.getD 80) (args.breakpoints.getD DEFAULT_BREAKPOINTS) 0 with
        | error e => simp [screenshotTool, h1, hg, hr, mkFailure]
        | ok caps =>
          exfalso
          simp [screenshotTool, h1, hg, hr] at hfail
  · intro k b hb hc
    have hpres := getBrowser_connected_preserved tmpdir env.launchResult
      (args.headless.getD true) args.sessionId args.userDataDir st k b hb hc
    cases h1 : strTruthy args.url with
    | false => simpa [screenshotTool, h1] using hb
    | true =>
      rcases hg : getBrowser tmpdir env.launchResult (args.headless.getD true)
          args.sessionId args.userDataDir st with ⟨gb, st1, lc⟩
      rw [hg] at hpres
      cases gb with
      | error e => simpa [screenshotTool, h1, hg] using hpres
      | ok b1 =>
        cases hr : runViewports env args.cookies (args.actions.getD [])
            (args.maxWidth.getD 1280) (args.imageFormat.getD "jpeg")
            (args.quality.getD 80) (args.breakpoints.getD DEFAULT_BREAKPOINTS) 0 with
        | error e => simpa [screenshotTool, h1, hg, hr] using hpres
        | ok caps => simpa [screenshotTool, h1, hg, hr] using hpres

/-- C7 witness: a run whose navigation fails at the first viewport returns
the empty collections and zero summary even though a console event occurred,
and the connected entry of an unrelated session survives the failing run. -/
theorem C7_witness :
    ((screenshotTool "/tmp" failRunEnv { url := some "https://example.com" }
        [("other", { id := 3, connected := true })]).1.screenshots = [] ∧
      (screenshotTool "/tmp" failRunEnv { url := some "https://example.com" }
        [("other", { id := 3, connected := true })]).1.pageErrors = [] ∧
      (screenshotTool "/tmp" failRunEnv { url := some "https://example.com" }
        [("other", { id := 3, connected := true })]).1.errorSummary = emptySummary ∧
      ((screenshotTool "/tmp" failRunEnv { url := some "https://example.com" }
        [("other", { id := 3, connected := true })]).1.error).isSome = true) ∧
    lookupEntry "other"
        (screenshotTool "/tmp" failRunEnv { url := some "https://example.com" }
          [("other", { id := 3, connected := true })]).2.1 =
      some { id := 3, connected := true } :=
  ⟨( C7_theorem "/tmp" failRunEnv { url := some "https://example.com" }
      [("other", { id := 3, connected := true })]).1 rfl,
   ( C7_theorem "/tmp" failRunEnv { url := some "https://example.com" }
      [("other", { id := 3, connected := true })]).2 "other"
      { id := 3, connected := true } rfl rfl⟩

/-- C1 counterexample: the request of the claim, with breakpoints given as
the explicit empty list, succeeds with zero captures rather than the three
default ones: the destructuring default applies only to an absent field. -/
theorem C1_counterexample :
    (screenshotTool "/tmp" okRunEnv
        { url := some "https://example.com", breakpoints := some [] } []).1.success = true ∧
    (screenshotTool "/tmp" okRunEnv
        { url := some "https://example.com", breakpoints := some [] } []).1.screenshots.length ≠
      3 := by
  constructor
  · rfl
  · exact (by decide : (0 : Nat) ≠ 3)

/-- C1 (amended): for every request with a non-empty url and the breakpoints
field absent, the default widths apply: a successful run yields exactly the
three captures at widths 375, 768 and 1280, each with `optimized` false
under the default maxWidth of 1280. -/
theorem C1_theorem (tmpdir : String) (env : RunEnv) (u : String) (b : Browser)
    (s0 s1 s2 : String) (hu : u ≠ "") (hlaunch : env.launchResult = Except.ok b)
    (hg0 : (env.viewports 0).gotoResult = Except.ok ())
    (hs0 : (env.viewports 0).shotResult = Except.ok s0)
    (hg1 : (env.viewports 1).gotoResult = Except.ok ())
    (hs1 : (env.viewports 1).shotResult = Except.ok s1)
    (hg2 : (env.viewports 2).gotoResult = Except.ok ())
    (hs2 : (env.viewports 2).shotResult = Except.ok s2) :
    (screenshotTool tmpdir env { url := some u } []).1.success = true ∧
    (screenshotTool tmpdir env { url := some u } []).1.screenshots.map
        (fun c => (c.metadata.viewport.width, c.metadata.optimized)) =
      [(375, false), (768, false), (1280, false)] := by
  have hr : runViewports env none [] 1280 "jpeg" 80 DEFAULT_BREAKPOINTS 0 =
      Except.ok
        [mkCapture { width := 375 } 1280 "jpeg" (env.viewports 0).dims s0
          (env.viewports 0).loadTime (env.viewports 0).timestamp,
         mkCapture { width := 768 } 1280 "jpeg" (env.viewports 1).dims s1
          (env.viewports 1).loadTime (env.viewports 1).timestamp,
         mkCapture { width := 1280 } 1280 "jpeg" (env.viewports 2).dims s2
          (env.viewports 2).loadTime (env.viewports 2).timestamp] := by
    simp [runViewports, DEFAULT_BREAKPOINTS, hg0, hs0, hg1, hs1, hg2, hs2]
  have hg : getBrowser tmpdir env.launchResult true none none [] =
      (Except.ok b, [("default", b)], some { headless := true, userDataDir := none }) := by
    rw [hlaunch]
    rfl
  have heq := screenshotTool_eq_of_run_ok tmpdir env { url := some u } [] b
    [("default", b)] (some { headless := true, userDataDir := none })
    [mkCapture { width := 375 } 1280 "jpeg" (env.viewports 0).dims s0
      (env.viewports 0).loadTime (env.viewports 0).timestamp,
     mkCapture { width := 768 } 1280 "jpeg" (env.viewports 1).dims s1
      (env.viewports 1).loadTime (env.viewports 1).timestamp,
     mkCapture { width := 1280 } 1280 "jpeg" (env.viewports 2).dims s2
      (env.viewports 2).loadTime (env.viewports 2).timestamp]
    (by simp [strTruthy, hu]) hg hr
  rw [heq]
  constructor
  · rfl
  · simp [mkCapture]

/-- C1 witness: the amended claim evaluated in the benign environment at the
concrete request with only a url. -/
theorem C1_witness :
    (screenshotTool "/tmp" okRunEnv { url := some "https://example.com" } []).1.success =
      true ∧
    (screenshotTool "/tmp" okRunEnv { url := some "https://example.com" } []).1.screenshots.map
        (fun c => (c.metadata.viewport.width, c.metadata.optimized)) =
      [(375, false), (768, false), (1280, false)] :=
  C1_theorem "/tmp" okRunEnv "https://example.com" okBrowser "IMG" "IMG" "IMG"
    (by decide) rfl rfl rfl rfl rfl rfl rfl

end PuppeteerMCP
